import Mathlib

unseal Rat.mul Rat.add Rat.sub Rat.inv

/-!
Shallow embedding of the blackletter redaction pipeline core
(`blackletter/core/planner.py`, `blackletter/core/redactor.py`,
`blackletter/core/extractor.py`).

Pixel- and point-space coordinates (Python floats) are modelled as `ℚ`;
Python `int(...)` truncation is modelled by `pyInt`.  Python dicts keyed by
page index are modelled as functions `ℕ → Option ℚ`.  External collaborators
(the overlap filter, the line-level text redactor, PyMuPDF) are treated as
boundaries: the planner consumes the already-filtered object list, and the
geometry engine's output is the list of windows/boxes it forwards to them.
-/

namespace Blackletter

/-- Column assignment of a detected layout object (`o["col"]`). -/
inductive Col
  | LEFT
  | RIGHT
  | unset
deriving DecidableEq

/-- Detection labels that the pipeline distinguishes. -/
inductive Label
  | caption
  | line
  | headmatter
  | Key
  | header
  | footnotes
  | brackets
  | order
  | other
deriving DecidableEq

/-- Pixel-space detection rectangle (`o["coords"]`). -/
structure PxRect where
  x1 : ℚ
  y1 : ℚ
  x2 : ℚ
  y2 : ℚ
deriving DecidableEq

/-- One ML-classified layout region (the dicts in `global_objects`). -/
structure LayoutObject where
  page_index : ℕ
  label : Label
  col : Col
  y1 : ℚ
  y2 : ℚ
  coords : PxRect
deriving DecidableEq

/-- Test for the column string equaling `"LEFT"`
(the comparisons `start["col"] == "LEFT"` in `redactor.py`). -/
def Col.isLeft : Col → Bool
  | Col.LEFT => true
  | _ => false

/-! ## Planner (`blackletter/core/planner.py`) -/

/-- State machine states (`OpinionState`). -/
inductive OpinionState
  | WAIT_CAPTION
  | TRACKING
  | LOCKED_UNTIL_KEY
deriving DecidableEq

/-- A planned redaction pair (`{"start": ..., "end": ...}`); the dict values
can in principle be `None`, hence `Option`. -/
structure Instruction where
  start : Option LayoutObject
  end_ : Option LayoutObject
deriving DecidableEq

/-- An opinion span as recorded by `_record_opinion_span`. -/
structure Span where
  n : ℕ
  start : Option LayoutObject
  end_ : Option LayoutObject
  reason : String
deriving DecidableEq

/-- A span after `_assign_case_names` has attached `case_name`. -/
structure NamedSpan where
  span : Span
  case_name : String
deriving DecidableEq

/-- Model of `_record_opinion_span`: skip silently when start or end is missing,
otherwise bump `opinion_idx` and append the span. -/
def recordOpinionSpan (spans : List Span) (idx : ℕ)
    (start e : Option LayoutObject) (reason : String) : List Span × ℕ :=
  match start, e with
  | some s, some e' => (spans ++ [⟨idx + 1, some s, some e', reason⟩], idx + 1)
  | _, _ => (spans, idx)

/-- Mutable state threaded through `plan`'s state-machine loop. -/
structure PlannerSt where
  instrs : List Instruction
  spans : List Span
  active_start : Option LayoutObject
  candidate_end : Option LayoutObject
  start_caption : Option LayoutObject
  state : OpinionState
  opinion_idx : ℕ
deriving DecidableEq

/-- Initial state of one `plan` call. -/
def initPlannerSt : PlannerSt :=
  ⟨[], [], none, none, none, OpinionState.WAIT_CAPTION, 0⟩

/-- One iteration of the state-machine loop in `plan` (lines 73–125). -/
def stepPlanner (st : PlannerSt) (obj : LayoutObject) : PlannerSt :=
  if obj.label = Label.caption ∨ obj.label = Label.line ∨
      obj.label = Label.headmatter ∨ obj.label = Label.Key then
    match st.state with
    | OpinionState.LOCKED_UNTIL_KEY =>
        if obj.label = Label.Key then
          let r := recordOpinionSpan st.spans st.opinion_idx
            st.start_caption (some obj) "caption->Key"
          { st with spans := r.1, opinion_idx := r.2, start_caption := none,
                    state := OpinionState.WAIT_CAPTION }
        else st
    | OpinionState.WAIT_CAPTION =>
        if obj.label = Label.caption then
          { st with active_start := some obj, start_caption := some obj,
                    state := OpinionState.TRACKING }
        else st
    | OpinionState.TRACKING =>
        if obj.label = Label.line then
          { st with instrs := st.instrs ++ [⟨st.active_start, some obj⟩],
                    state := OpinionState.LOCKED_UNTIL_KEY }
        else if obj.label = Label.headmatter then
          if st.candidate_end = none then { st with candidate_end := some obj }
          else st
        else if obj.label = Label.Key then
          let r := recordOpinionSpan st.spans st.opinion_idx
            st.start_caption (some obj) "caption->Key"
          let instrs :=
            match st.candidate_end with
            | some ce => st.instrs ++ [⟨st.active_start, some ce⟩]
            | none => st.instrs
          { st with spans := r.1, instrs := instrs, opinion_idx := r.2,
                    state := OpinionState.WAIT_CAPTION, active_start := none,
                    candidate_end := none, start_caption := none }
        else st
  else st

/-- Sort rank of a column value under Python string comparison in the
object sort key (`"LEFT" < "RIGHT" <` the unset placeholder). -/
def colSortKey : Col → ℕ
  | Col.LEFT => 0
  | Col.RIGHT => 1
  | Col.unset => 2

/-- The lexicographic object ordering `(page_index, col, y1)` used by
`sorted` in `plan` (line 46). -/
def objLE (a b : LayoutObject) : Prop :=
  a.page_index < b.page_index ∨
    (a.page_index = b.page_index ∧
      (colSortKey a.col < colSortKey b.col ∨
        (colSortKey a.col = colSortKey b.col ∧ a.y1 ≤ b.y1)))

instance : DecidableRel objLE := fun a b => by
  unfold objLE; infer_instance

/-- The reading-order sort of `plan` (stable on ties, as Python's `sorted`;
ties never arise in the concrete runs below). -/
def sortObjects (objs : List LayoutObject) : List LayoutObject :=
  List.insertionSort objLE objs

/-- Header collection: `page_headers[pg] = obj["y2"]`, later pages overwrite. -/
def collectHeaders (objs : List LayoutObject) : ℕ → Option ℚ :=
  objs.foldl
    (fun m o =>
      if o.label = Label.header then
        fun p => if p = o.page_index then some o.y2 else m p
      else m)
    (fun _ => none)

/-- Footer collection: `page_footers[pg] = min(existing, y1)` with `inf`
as the absent value, i.e. the topmost footnote edge wins. -/
def collectFooters (objs : List LayoutObject) : ℕ → Option ℚ :=
  objs.foldl
    (fun m o =>
      if o.label = Label.footnotes then
        fun p =>
          if p = o.page_index then
            some (match m o.page_index with
                  | none => o.y1
                  | some v => min v o.y1)
          else m p
      else m)
    (fun _ => none)

/-- First-page value used for case naming
(`sp["start"]["page_index"] + page_start`).  A missing start would raise in
Python; the planner never emits one (see the C2 theorem), and the junk value
`page_start` stands in for that unreachable branch. -/
def spanFirstPage (sp : Span) (page_start : ℕ) : ℕ :=
  match sp.start with
  | some s => s.page_index + page_start
  | none => page_start

/-- Sort key page component of `_assign_case_names.sort_key`
(`start.get("page_index", 10**9)`). -/
def spanKeyPage (sp : Span) : ℕ :=
  match sp.start with
  | some s => s.page_index
  | none => 10 ^ 9

/-- Sort key column component (`COL_ORDER.get(col, 99)`). -/
def spanKeyCol (sp : Span) : ℕ :=
  match sp.start with
  | some s =>
      match s.col with
      | Col.LEFT => 0
      | Col.RIGHT => 1
      | Col.unset => 99
  | none => 99

/-- Sort key y component (`start.get("y1", 10**9)`). -/
def spanKeyY (sp : Span) : ℚ :=
  match sp.start with
  | some s => s.y1
  | none => 10 ^ 9

/-- Lexicographic span ordering of `_assign_case_names`. -/
def spanLE (a b : Span) : Prop :=
  spanKeyPage a < spanKeyPage b ∨
    (spanKeyPage a = spanKeyPage b ∧
      (spanKeyCol a < spanKeyCol b ∨
        (spanKeyCol a = spanKeyCol b ∧ spanKeyY a ≤ spanKeyY b)))

instance : DecidableRel spanLE := fun a b => by
  unfold spanLE; infer_instance

/-- The sort `opinion_spans.sort(key=sort_key)`. -/
def sortSpans (spans : List Span) : List Span :=
  List.insertionSort spanLE spans

/-- Zero-pad a numeral string on the left to width `w`
(Python `f-string` `0`-padding for non-negative ints). -/
def padZeros (w : ℕ) (n : ℕ) : String :=
  let s := toString n
  String.mk (List.replicate (w - s.length) '0') ++ s

/-- The case-name format string `"{first_page:04d}-{counter:02d}"`. -/
def caseName (fp counter : ℕ) : String :=
  padZeros 4 fp ++ "-" ++ padZeros 2 counter

/-- Counter-assignment walk of `_assign_case_names` (lines 168–173),
threading the per-first-page counter map `page_counter`. -/
def ccGo (page_start : ℕ) (pc : ℕ → ℕ) : List Span → List (Span × ℕ × ℕ)
  | [] => []
  | sp :: rest =>
      let fp := spanFirstPage sp page_start
      let c := pc fp + 1
      (sp, fp, c) :: ccGo page_start (fun k => if k = fp then c else pc k) rest

/-- Sorted spans with the `(first_page, counter)` pair each receives. -/
def caseCounters (spans : List Span) (page_start : ℕ) :
    List (Span × ℕ × ℕ) :=
  ccGo page_start (fun _ => 0) (sortSpans spans)

/-- Model of `_assign_case_names`: sort, then attach
`case_name = "{first_page:04d}-{counter:02d}"`. -/
def assignCaseNames (spans : List Span) (page_start : ℕ) : List NamedSpan :=
  (caseCounters spans page_start).map (fun t => ⟨t.1, caseName t.2.1 t.2.2⟩)

/-- The four outputs of `OpinionPlanner.plan`. -/
structure PlanResult where
  instructions : List Instruction
  spans : List NamedSpan
  page_headers : ℕ → Option ℚ
  page_footers : ℕ → Option ℚ

/-- Model of `OpinionPlanner.plan` on the already-overlap-filtered object list
(the overlap filter is an external collaborator): sort into reading order,
collect headers/footers, run the state machine, assign case names. -/
def plan (global_objects : List LayoutObject) (first_page : ℕ) : PlanResult :=
  let objs := sortObjects global_objects
  let final := objs.foldl stepPlanner initPlannerSt
  { instructions := final.instrs
    spans := assignCaseNames final.spans first_page
    page_headers := collectHeaders objs
    page_footers := collectFooters objs }

/-! ## Geometry engine (`blackletter/core/redactor.py`) -/

/-- Python `int(...)` on a float: truncation toward zero. -/
def pyInt (q : ℚ) : Int :=
  if 0 ≤ q then ⌊q⌋ else ⌈q⌉

/-- A point-space window forwarded to the external line-level text
redactor (`win_pdf` in `redact_text_window`). -/
structure Window where
  x0 : ℚ
  y0 : ℚ
  x1 : ℚ
  y1 : ℚ
deriving DecidableEq

/-- A point-space rectangle registered directly as a redaction annotation. -/
structure Rect where
  x0 : ℚ
  y0 : ℚ
  x1 : ℚ
  y1 : ℚ
deriving DecidableEq

/-- The numeric configuration fields the geometry engine reads. -/
structure RedCfg where
  start_offset : ℚ
  end_offset : ℚ
  dpi : ℚ
deriving DecidableEq

/-- Per-page geometry threaded into `_apply_instruction`: header ceiling,
per-column bottom limits, column x-bounds and the pixel→point scales. -/
structure GeoCtx where
  ceiling_y : ℚ
  limit_bottom_left : ℚ
  limit_bottom_right : ℚ
  LEFT_X1 : ℚ
  LEFT_X2 : ℚ
  RIGHT_X1 : ℚ
  RIGHT_X2 : ℚ
  scale_x : ℚ
  scale_y : ℚ
deriving DecidableEq

/-- Model of `do_column_box` (redactor.py lines 134–155): clamp the y-range to
`[ceiling_y, limit_bottom]`, drop the box when the clamped height is
non-positive, otherwise forward the column-wide window (rescaled to point
space) to the external text redactor.  `none` means dropped. -/
def doColumnBox (ctx : GeoCtx) (y_top y_bottom : ℚ) (is_left : Bool) :
    Option Window :=
  let yT : Int := pyInt (max ctx.ceiling_y y_top)
  let maxY : ℚ := if is_left then ctx.limit_bottom_left else ctx.limit_bottom_right
  let yB : Int := pyInt (min maxY y_bottom)
  if yB ≤ yT then none
  else
    let xx1 : ℚ := if is_left then ctx.LEFT_X1 else ctx.RIGHT_X1
    let xx2 : ℚ := if is_left then ctx.LEFT_X2 else ctx.RIGHT_X2
    some ⟨xx1 * ctx.scale_x, (yT : ℚ) * ctx.scale_y,
          xx2 * ctx.scale_x, (yB : ℚ) * ctx.scale_y⟩

/-- Model of `_apply_instruction` (redactor.py lines 111–191) for the instruction
`{start, end}` on page `page_idx`; returns the windows forwarded to the
text redactor, in registration order. -/
def applyInstruction (cfg : RedCfg) (ctx : GeoCtx)
    (start e : LayoutObject) (page_idx : ℕ) : List Window :=
  if e.page_index < page_idx ∨ start.page_index > page_idx then []
  else
    let s_col := start.col.isLeft
    let e_col := e.col.isLeft
    if start.page_index = page_idx ∧ e.page_index = page_idx then
      let sy := start.y2 + cfg.start_offset
      let ey := e.y1 + cfg.end_offset
      if s_col = e_col then (doColumnBox ctx sy ey s_col).toList
      else
        (doColumnBox ctx sy 9999 true).toList ++
          (doColumnBox ctx 0 ey false).toList
    else if start.page_index < page_idx ∧ e.page_index = page_idx then
      let ey := e.y1 + cfg.end_offset
      if e_col then (doColumnBox ctx 0 ey true).toList
      else
        (doColumnBox ctx 0 9999 true).toList ++
          (doColumnBox ctx 0 ey false).toList
    else if start.page_index = page_idx ∧ page_idx < e.page_index then
      let sy := start.y2 + cfg.start_offset
      if s_col then
        (doColumnBox ctx sy 9999 true).toList ++
          (doColumnBox ctx 0 9999 false).toList
      else (doColumnBox ctx sy 9999 false).toList
    else if start.page_index < page_idx ∧ page_idx < e.page_index then
      (doColumnBox ctx 0 9999 true).toList ++
        (doColumnBox ctx 0 9999 false).toList
    else []

/-- One iteration of the footnote scan of `_apply_body_redactions`
(lines 211–220): a footnote lowers its column's bottom limit to its `y1`;
a footnote with no column lowers both. -/
def footnoteStep (lims : ℚ × ℚ) (o : LayoutObject) : ℚ × ℚ :=
  if o.label = Label.footnotes then
    match o.col with
    | Col.LEFT => (min lims.1 o.y1, lims.2)
    | Col.RIGHT => (lims.1, min lims.2 o.y1)
    | Col.unset => (min lims.1 o.y1, min lims.2 o.y1)
  else lims

/-- Footnote scan of `_apply_body_redactions` (lines 206–220): per-column
bottom limits, starting at the default margin `img_h - 60`. -/
def footnoteLimits (objs_on_page : List LayoutObject) (img_h : ℚ) : ℚ × ℚ :=
  objs_on_page.foldl footnoteStep (img_h - 60, img_h - 60)

/-- Header scan of `_apply_body_redactions` (lines 222–228): the ceiling is
90, raised to `max(90, max_header_bottom + 5)` only when some header was
detected and the tallest header bottom lies above one third of the image
height. -/
def ceilingY (objs_on_page : List LayoutObject) (img_h : ℚ) : ℚ :=
  match (objs_on_page.filter (fun o => decide (o.label = Label.header))).map
      (fun o => o.y2) with
  | [] => 90
  | y :: ys =>
      let mhb := ys.foldl max y
      if mhb < img_h / 3 then max 90 (mhb + 5) else 90

/-- Pixel-space column boundaries for one page
(`page_columns_px[page_idx]`). -/
structure ColumnBounds where
  l1 : ℚ
  l2 : ℚ
  r1 : ℚ
  r2 : ℚ
  split : ℚ
deriving DecidableEq

/-- The fallback column bounds of `_apply_body_redactions` (lines 231–240);
note the inherited quirk that they are derived from the image *height*. -/
def fallbackColumns (img_h : ℚ) : ColumnBounds :=
  ⟨30, (pyInt (img_h / 2 - 5) : ℚ), (pyInt (img_h / 2 + 5) : ℚ),
    (pyInt (img_h - 30) : ℚ), (pyInt (img_h / 2) : ℚ)⟩

/-- Model of `_apply_body_redactions` (lines 193–258): build the page's geometry
context and run every instruction through `_apply_instruction`; returns all
windows forwarded to the text redactor. -/
def applyBodyRedactions (cfg : RedCfg)
    (instructions : List (LayoutObject × LayoutObject)) (page_idx : ℕ)
    (objs_on_page : List LayoutObject) (img_h : ℚ)
    (page_columns_px : ℕ → Option ColumnBounds)
    (scale_x scale_y : ℚ) : List Window :=
  let lims := footnoteLimits objs_on_page img_h
  let ceil := ceilingY objs_on_page img_h
  let cb := (page_columns_px page_idx).getD (fallbackColumns img_h)
  let ctx : GeoCtx :=
    ⟨ceil, lims.1, lims.2, cb.l1, cb.l2, cb.r1, cb.r2, scale_x, scale_y⟩
  instructions.flatMap (fun i => applyInstruction cfg ctx i.1 i.2 page_idx)

/-- Model of `_add_redaction_box` (lines 315–328): drop the box when its width or
height is non-positive, otherwise register the rescaled rectangle. -/
def addRedactionBox (x1 y1 x2 y2 : Int) (scale_x scale_y : ℚ) : Option Rect :=
  if y2 ≤ y1 ∨ x2 ≤ x1 then none
  else some ⟨(x1 : ℚ) * scale_x, (y1 : ℚ) * scale_y,
             (x2 : ℚ) * scale_x, (y2 : ℚ) * scale_y⟩

/-- Detection rectangle truncated entrywise, `[int(x) for x in o["coords"]]`. -/
def intCoords (r : PxRect) : Int × Int × Int × Int :=
  (pyInt r.x1, pyInt r.y1, pyInt r.x2, pyInt r.y2)

/-- Discrete-object boxes of `_apply_object_redactions` (lines 274–281):
objects labeled line/Key/brackets/order, through `_add_redaction_box`. -/
def objectBoxes (objs_on_page : List LayoutObject)
    (scale_x scale_y : ℚ) : List Rect :=
  objs_on_page.foldl
    (fun acc o =>
      if o.label = Label.line ∨ o.label = Label.Key ∨
          o.label = Label.brackets ∨ o.label = Label.order then
        let c := intCoords o.coords
        acc ++ (addRedactionBox c.1 c.2.1 c.2.2.1 c.2.2.2 scale_x scale_y).toList
      else acc)
    []

/-- The last header object's `int()`-truncated coords, as tracked by the
`header_coord` variable of `_apply_object_redactions`. -/
def lastHeaderCoord (objs_on_page : List LayoutObject) :
    Option (Int × Int × Int × Int) :=
  objs_on_page.foldl
    (fun acc o =>
      if o.label = Label.header then some (intCoords o.coords) else acc)
    none

/-- Header redaction of `_apply_object_redactions` (lines 287–313), given
the external header-boundary refiner's answer `hdr` for this page: union the
refined box with the raw header bottom, or fall back to the raw header box. -/
def headerRedaction (objs_on_page : List LayoutObject)
    (hdr : Option Rect) (scale_x scale_y : ℚ) : Option Rect :=
  let hc := lastHeaderCoord objs_on_page
  match hdr with
  | some r =>
      let ry2 : ℚ :=
        match hc with
        | some c => (c.2.2.2 : ℚ) * scale_y
        | none => r.y1
      some ⟨r.x0, r.y0, r.x1, max r.y1 ry2⟩
  | none =>
      match hc with
      | some c => addRedactionBox c.1 c.2.1 c.2.2.1 c.2.2.2 scale_x scale_y
      | none => none

/-- Per-page point/pixel dimensions (`page_dimensions[page_idx]`). -/
structure PageDims where
  pdf_w : ℚ
  pdf_h : ℚ
  img_w : ℚ
  img_h : ℚ
deriving DecidableEq

/-- The per-page rescaling factors of `redact` (lines 77–79):
`(pdf_w / img_w, pdf_h / img_h)`. -/
def pageScale (d : PageDims) : ℚ × ℚ :=
  (d.pdf_w / d.img_w, d.pdf_h / d.img_h)

/-- Everything `PDFRedactor.redact` consumes for one document; the external
header-boundary refiner is abstracted as its per-page answer. -/
structure RedactInputs where
  instructions : List (LayoutObject × LayoutObject)
  global_objects : List LayoutObject
  page_dimensions : ℕ → Option PageDims
  page_columns_px : ℕ → Option ColumnBounds
  headerRefined : ℕ → Option Rect

/-- Everything `redact` does to one page: the body windows forwarded to the
text redactor, the discrete-object boxes, the header redaction, and whether
`apply_redactions` ran. -/
structure PageEffect where
  bodyWindows : List Window
  objBoxes : List Rect
  headerBox : Option Rect
  applied : Bool
deriving DecidableEq

/-- Page filter `o["page_index"] == page_idx` of `redact` (lines 81–83). -/
def pageObjects (global_objects : List LayoutObject) (page_idx : ℕ) :
    List LayoutObject :=
  global_objects.filter (fun o => decide (o.page_index = page_idx))

/-- One iteration of `redact`'s page loop (lines 70–101): a page missing
from `page_dimensions` is skipped outright — no body windows, no object
boxes, no header redaction, no `apply_redactions`. -/
def redactPage (cfg : RedCfg) (inp : RedactInputs) (page_idx : ℕ) :
    PageEffect :=
  match inp.page_dimensions page_idx with
  | none => ⟨[], [], none, false⟩
  | some d =>
      let sx := d.pdf_w / d.img_w
      let sy := d.pdf_h / d.img_h
      let objs := pageObjects inp.global_objects page_idx
      { bodyWindows :=
          applyBodyRedactions cfg inp.instructions page_idx objs d.img_h
            inp.page_columns_px sx sy
        objBoxes := objectBoxes objs sx sy
        headerBox := headerRedaction objs (inp.headerRefined page_idx) sx sy
        applied := true }

/-! ## Opinion splitter (`blackletter/core/extractor.py`) -/

/-- The splitter's single pixel→point factor
(`scale = 72 / self.config.dpi`, extractor.py line 45), used for both axes
on every page it masks. -/
def splitterScale (cfg : RedCfg) : ℚ :=
  72 / cfg.dpi

/-! ## Invariants and concrete inputs used by the verification -/

/-- An instruction whose endpoints are both present. -/
def InstrOk (i : Instruction) : Prop :=
  i.start.isSome = true ∧ i.end_.isSome = true

/-- A span whose endpoints are both present. -/
def SpanOk (s : Span) : Prop :=
  s.start.isSome = true ∧ s.end_.isSome = true

/-- Loop invariant of the planner state machine: while tracking, the
active start node is present, and everything emitted so far has both
endpoints. -/
def PlannerInv (st : PlannerSt) : Prop :=
  (st.state = OpinionState.TRACKING → st.active_start.isSome = true) ∧
    (∀ i ∈ st.instrs, InstrOk i) ∧ (∀ s ∈ st.spans, SpanOk s)

/-- The configuration defaults of `RedactionConfig`
(`start_offset = 0`, `end_offset = 0`, `dpi = 200`). -/
def cfg0 : RedCfg := ⟨0, 0, 200⟩

/-- Caption object of the `caption, headmatter, Key` run (page 0, LEFT). -/
def oC3caption : LayoutObject :=
  ⟨0, Label.caption, Col.LEFT, 100, 120, ⟨30, 100, 300, 120⟩⟩

/-- Headmatter object of the `caption, headmatter, Key` run. -/
def oC3headmatter : LayoutObject :=
  ⟨0, Label.headmatter, Col.LEFT, 200, 220, ⟨30, 200, 300, 220⟩⟩

/-- Key object of the `caption, headmatter, Key` run. -/
def oC3key : LayoutObject :=
  ⟨0, Label.Key, Col.LEFT, 300, 320, ⟨30, 300, 300, 320⟩⟩

/-- First caption of the stale-tracker run (page 0, LEFT, y1 = 100). -/
def o9caption1 : LayoutObject :=
  ⟨0, Label.caption, Col.LEFT, 100, 110, ⟨30, 100, 300, 110⟩⟩

/-- First headmatter of the stale-tracker run (y1 = 150). -/
def o9headmatter1 : LayoutObject :=
  ⟨0, Label.headmatter, Col.LEFT, 150, 160, ⟨30, 150, 300, 160⟩⟩

/-- First line of the stale-tracker run (y1 = 200). -/
def o9line1 : LayoutObject :=
  ⟨0, Label.line, Col.LEFT, 200, 210, ⟨30, 200, 300, 210⟩⟩

/-- First Key of the stale-tracker run (y1 = 250). -/
def o9key1 : LayoutObject :=
  ⟨0, Label.Key, Col.LEFT, 250, 260, ⟨30, 250, 300, 260⟩⟩

/-- Second caption of the stale-tracker run (y1 = 300). -/
def o9caption2 : LayoutObject :=
  ⟨0, Label.caption, Col.LEFT, 300, 310, ⟨30, 300, 300, 310⟩⟩

/-- Second Key of the stale-tracker run (y1 = 350); no headmatter sits
between `o9caption2` and this object. -/
def o9key2 : LayoutObject :=
  ⟨0, Label.Key, Col.LEFT, 350, 360, ⟨30, 350, 300, 360⟩⟩

/-- A well-formed page geometry: ceiling 90, bottom limits 700, LEFT
column x∈[30,300], RIGHT column x∈[320,600], unit scales. -/
def ctx0 : GeoCtx := ⟨90, 700, 700, 30, 300, 320, 600, 1, 1⟩

/-- Same geometry but with inverted LEFT column x-bounds, so every LEFT
column window has negative width. -/
def ctxBad : GeoCtx := ⟨90, 700, 700, 300, 30, 320, 600, 1, 1⟩

/-- Instruction start in the RIGHT column of page 0 (`y2 = 200`). -/
def sRight : LayoutObject :=
  ⟨0, Label.caption, Col.RIGHT, 190, 200, ⟨320, 190, 600, 200⟩⟩

/-- Instruction end in the LEFT column of page 0 (`y1 = 150`). -/
def eLeft : LayoutObject :=
  ⟨0, Label.line, Col.LEFT, 150, 160, ⟨30, 150, 300, 160⟩⟩

/-- Instruction start in the LEFT column of page 0 (`y2 = 100`). -/
def sLeft : LayoutObject :=
  ⟨0, Label.caption, Col.LEFT, 90, 100, ⟨30, 90, 300, 100⟩⟩

/-- Instruction end in the LEFT column of page 0 (`y1 = 600`). -/
def eLeft2 : LayoutObject :=
  ⟨0, Label.line, Col.LEFT, 600, 610, ⟨30, 600, 300, 610⟩⟩

/-- A single header detection on page 0 with bottom edge `y2 = 100`. -/
def oHeader : LayoutObject :=
  ⟨0, Label.header, Col.unset, 40, 100, ⟨30, 40, 600, 100⟩⟩

/-- Redaction inputs whose `page_dimensions` map is empty. -/
def inpNoDims : RedactInputs :=
  ⟨[(sLeft, eLeft2)], [sLeft, eLeft2, oHeader], fun _ => none,
    fun _ => none, fun _ => none⟩

/-- Page dimensions whose pixel raster does not match a 200 dpi rendering
of the point size (US Letter points, square 1000×1000 raster). -/
def dimsOff : PageDims := ⟨612, 792, 1000, 1000⟩

/-- Page dimensions rendered at exactly 200 dpi:
`1700 = 612·200/72` and `2200 = 792·200/72`. -/
def dims200 : PageDims := ⟨612, 792, 1700, 2200⟩

/-! ## Helper lemmas -/

/-- Everything in the span list produced by `recordOpinionSpan` was either
there before or has both endpoints present. -/
lemma mem_recordOpinionSpan (spans : List Span) (idx : ℕ)
    (a b : Option LayoutObject) (r : String) (s : Span)
    (h : s ∈ (recordOpinionSpan spans idx a b r).1) : s ∈ spans ∨ SpanOk s := by
  cases a with
  | none => cases b <;> exact Or.inl h
  | some x =>
      cases b with
      | none => exact Or.inl h
      | some y =>
          rcases List.mem_append.mp h with h' | h'
          · exact Or.inl h'
          · simp only [List.mem_singleton] at h'
            subst h'
            exact Or.inr ⟨rfl, rfl⟩

/-- One state-machine step preserves the planner invariant. -/
lemma stepPlanner_inv (st : PlannerSt) (obj : LayoutObject)
    (h : PlannerInv st) : PlannerInv (stepPlanner st obj) := by
  obtain ⟨hA, hI, hS⟩ := h
  unfold stepPlanner
  split
  · cases hst : st.state with
    | LOCKED_UNTIL_KEY =>
        dsimp only
        split_ifs with hk
        · refine ⟨?_, hI, ?_⟩
          · intro hc; simp at hc
          · intro s hs
            rcases mem_recordOpinionSpan _ _ _ _ _ _ hs with h' | h'
            · exact hS s h'
            · exact h'
        · exact ⟨hA, hI, hS⟩
    | WAIT_CAPTION =>
        dsimp only
        split_ifs with hk
        · exact ⟨fun _ => rfl, hI, hS⟩
        · exact ⟨hA, hI, hS⟩
    | TRACKING =>
        have hstart := hA hst
        dsimp only
        split_ifs with h1 h2 h3 h4
        · refine ⟨?_, ?_, hS⟩
          · intro hc; simp at hc
          · intro i hi
            rcases List.mem_append.mp hi with h' | h'
            · exact hI i h'
            · simp only [List.mem_singleton] at h'
              subst h'
              exact ⟨hstart, rfl⟩
        · exact ⟨fun _ => hstart, hI, hS⟩
        · exact ⟨fun _ => hstart, hI, hS⟩
        · cases hce : st.candidate_end with
          | none =>
              dsimp only
              refine ⟨?_, hI, ?_⟩
              · intro hc; simp at hc
              · intro s hs
                rcases mem_recordOpinionSpan _ _ _ _ _ _ hs with h' | h'
                · exact hS s h'
                · exact h'
          | some ce =>
              dsimp only
              refine ⟨?_, ?_, ?_⟩
              · intro hc; simp at hc
              · intro i hi
                rcases List.mem_append.mp hi with h' | h'
                · exact hI i h'
                · simp only [List.mem_singleton] at h'
                  subst h'
                  exact ⟨hstart, rfl⟩
              · intro s hs
                rcases mem_recordOpinionSpan _ _ _ _ _ _ hs with h' | h'
                · exact hS s h'
                · exact h'
        · exact ⟨hA, hI, hS⟩
  · exact ⟨hA, hI, hS⟩

/-- The initial planner state satisfies the invariant. -/
lemma plannerInv_init : PlannerInv initPlannerSt := by
  refine ⟨?_, ?_, ?_⟩ <;> simp [initPlannerSt]

/-- The state-machine fold preserves the planner invariant. -/
lemma foldl_stepPlanner_inv (l : List LayoutObject) :
    ∀ st : PlannerSt, PlannerInv st → PlannerInv (l.foldl stepPlanner st) := by
  induction l with
  | nil => intro st h; exact h
  | cons o l ih => intro st h; exact ih _ (stepPlanner_inv st o h)

/-- The span component of every tuple produced by the counter walk comes
from the input list. -/
lemma mem_ccGo (l : List Span) : ∀ (ps : ℕ) (pc : ℕ → ℕ) (t : Span × ℕ × ℕ),
    t ∈ ccGo ps pc l → t.1 ∈ l := by
  induction l with
  | nil => intro ps pc t h; simp [ccGo] at h
  | cons sp rest ih =>
      intro ps pc t h
      simp only [ccGo] at h
      rcases List.mem_cons.mp h with h' | h'
      · subst h'; exact List.mem_cons_self _ _
      · exact List.mem_cons_of_mem _ (ih _ _ _ h')

/-- Within one first-page group, the counter walk hands out the
consecutive counters following the group's running counter. -/
lemma ccGo_counters (l : List Span) : ∀ (ps : ℕ) (pc : ℕ → ℕ) (fp : ℕ),
    ((ccGo ps pc l).filter (fun t => decide (t.2.1 = fp))).map (fun t => t.2.2) =
      List.range' (pc fp + 1)
        (l.countP (fun sp => decide (spanFirstPage sp ps = fp))) := by
  induction l with
  | nil => intro ps pc fp; simp [ccGo]
  | cons sp rest ih =>
      intro ps pc fp
      simp only [ccGo, List.filter_cons, List.countP_cons]
      by_cases hfp : spanFirstPage sp ps = fp
      · simp only [hfp, decide_True, if_true, List.map_cons]
        rw [ih, List.range'_succ]
        simp [hfp]
      · simp only [hfp, decide_False, if_false, Bool.false_eq_true]
        rw [ih]
        have hne : fp ≠ spanFirstPage sp ps := fun h => hfp h.symm
        simp [hne]

/-- Folding `max` over a list whose maximum is `m` yields `m`. -/
lemma foldl_max_eq (ys : List ℚ) : ∀ (a m : ℚ), (a = m ∨ m ∈ ys) → a ≤ m →
    (∀ y ∈ ys, y ≤ m) → ys.foldl max a = m := by
  induction ys with
  | nil =>
      intro a m hm _ _
      rcases hm with h | h
      · exact h
      · simp at h
  | cons y ys ih =>
      intro a m hm ha hub
      rw [List.foldl_cons]
      apply ih
      · rcases hm with h | h
        · subst h
          exact Or.inl (max_eq_left (hub y (List.mem_cons_self _ _)))
        · rcases List.mem_cons.mp h with h' | h'
          · subst h'
            exact Or.inl (max_eq_right ha)
          · exact Or.inr h'
      · exact max_le ha (hub y (List.mem_cons_self _ _))
      · intro z hz
        exact hub z (List.mem_cons_of_mem _ hz)

/-- The footnote scan is the per-column fold of `min` over the footnote
top edges relevant to each column. -/
lemma foldl_footnoteStep (objs : List LayoutObject) : ∀ (l r : ℚ),
    objs.foldl footnoteStep (l, r) =
      (((objs.filter (fun o =>
          decide (o.label = Label.footnotes ∧ o.col ≠ Col.RIGHT))).map
            (fun o => o.y1)).foldl min l,
       ((objs.filter (fun o =>
          decide (o.label = Label.footnotes ∧ o.col ≠ Col.LEFT))).map
            (fun o => o.y1)).foldl min r) := by
  induction objs with
  | nil => intro l r; simp
  | cons o os ih =>
      intro l r
      rw [List.foldl_cons]
      by_cases hl : o.label = Label.footnotes
      · cases hc : o.col
        · have hstep : footnoteStep (l, r) o = (min l o.y1, r) := by
            simp [footnoteStep, hl, hc]
          rw [hstep]
          simp [List.filter_cons, hl, hc]
          simpa using ih (min l o.y1) r
        · have hstep : footnoteStep (l, r) o = (l, min r o.y1) := by
            simp [footnoteStep, hl, hc]
          rw [hstep]
          simp [List.filter_cons, hl, hc]
          simpa using ih l (min r o.y1)
        · have hstep : footnoteStep (l, r) o = (min l o.y1, min r o.y1) := by
            simp [footnoteStep, hl, hc]
          rw [hstep]
          simp [List.filter_cons, hl, hc]
          simpa using ih (min l o.y1) (min r o.y1)
      · have hstep : footnoteStep (l, r) o = (l, r) := by
          simp [footnoteStep, hl]
        rw [hstep]
        simp [List.filter_cons, hl]
        simpa using ih l r

/-! ## Claim theorems -/

/-- C1, counterexample: for an instruction starting in the RIGHT column and
ending in the LEFT column of the same page, the engine does **not** redact
the start object's column downward and the end object's column upward; the
claim's reading of `_apply_instruction` fails at this input. -/
theorem crossColumn_claim_counterexample :
    applyInstruction cfg0 ctx0 sRight eLeft 0 ≠
      (doColumnBox ctx0 (sRight.y2 + cfg0.start_offset) 9999
          sRight.col.isLeft).toList ++
        (doColumnBox ctx0 0 (eLeft.y1 + cfg0.end_offset)
          eLeft.col.isLeft).toList := by
  decide

/-- C1, amended: when start and end share a page but differ in column, the
engine always gives the LEFT column the band from `start.y2 + start_offset`
down to the page bottom and the RIGHT column the band from the page top down
to `end.y1 + end_offset` — the sides are hardcoded, not taken from which
column the start and end objects actually occupy. -/
theorem crossColumn_fixed_sides : ∀ (cfg : RedCfg) (ctx : GeoCtx)
    (s e : LayoutObject) (p : ℕ),
    s.page_index = p → e.page_index = p → s.col.isLeft ≠ e.col.isLeft →
    applyInstruction cfg ctx s e p =
      (doColumnBox ctx (s.y2 + cfg.start_offset) 9999 true).toList ++
        (doColumnBox ctx 0 (e.y1 + cfg.end_offset) false).toList := by
  intro cfg ctx s e p hs he hne
  unfold applyInstruction
  rw [hs, he]
  simp [hne]

/-- C1, witness: the amended statement evaluated on the concrete
RIGHT-to-LEFT instruction. -/
theorem crossColumn_fixed_sides_witness :
    applyInstruction cfg0 ctx0 sRight eLeft 0 =
      (doColumnBox ctx0 (sRight.y2 + cfg0.start_offset) 9999 true).toList ++
        (doColumnBox ctx0 0 (eLeft.y1 + cfg0.end_offset) false).toList :=
  crossColumn_fixed_sides cfg0 ctx0 sRight eLeft 0 (by decide) (by decide)
    (by decide)

/-- C2: every instruction and every opinion span the planner emits has both
endpoints present, and `recordOpinionSpan` silently skips (returns its
input unchanged) whenever the start or the end is missing. -/
theorem planner_endpoints_present : ∀ (objs : List LayoutObject) (fp : ℕ),
    (∀ i ∈ (plan objs fp).instructions, InstrOk i) ∧
    (∀ ns ∈ (plan objs fp).spans, SpanOk ns.span) ∧
    (∀ (spans : List Span) (idx : ℕ) (b : Option LayoutObject) (r : String),
      recordOpinionSpan spans idx none b r = (spans, idx)) ∧
    (∀ (spans : List Span) (idx : ℕ) (a : Option LayoutObject) (r : String),
      recordOpinionSpan spans idx a none r = (spans, idx)) := by
  intro objs fp
  obtain ⟨-, hI, hS⟩ :=
    foldl_stepPlanner_inv (sortObjects objs) initPlannerSt plannerInv_init
  refine ⟨?_, ?_, ?_, ?_⟩
  · intro i hi
    exact hI i (by simpa [plan] using hi)
  · intro ns hns
    simp only [plan, assignCaseNames, caseCounters, List.mem_map] at hns
    obtain ⟨t, ht, rfl⟩ := hns
    exact hS _ ((List.perm_insertionSort spanLE _).mem_iff.mp
      (mem_ccGo _ _ _ _ ht))
  · intro spans idx b r; cases b <;> rfl
  · intro spans idx a r; cases a <;> rfl

/-- C2, witness: the endpoint property evaluated on the instruction and the
span emitted for the concrete `caption, headmatter, Key` run. -/
theorem planner_endpoints_present_witness :
    InstrOk ⟨some oC3caption, some oC3headmatter⟩ ∧
      SpanOk ⟨1, some oC3caption, some oC3key, "caption->Key"⟩ :=
  ⟨(planner_endpoints_present [oC3caption, oC3headmatter, oC3key] 1).1 _
      (by decide),
   (planner_endpoints_present [oC3caption, oC3headmatter, oC3key] 1).2.1
      ⟨⟨1, some oC3caption, some oC3key, "caption->Key"⟩, "0001-01"⟩
      (by decide)⟩

/-- C3: on the single-page, single-column input `caption, headmatter, Key`
(no intervening line), the planner emits exactly one instruction
`{caption, headmatter}` and exactly one span `{caption, Key}` with reason
`caption->Key`. -/
theorem plan_caption_headmatter_key :
    (plan [oC3caption, oC3headmatter, oC3key] 1).instructions =
        [⟨some oC3caption, some oC3headmatter⟩] ∧
      (plan [oC3caption, oC3headmatter, oC3key] 1).spans =
        [⟨⟨1, some oC3caption, some oC3key, "caption->Key"⟩, "0001-01"⟩] := by
  decide

/-- C4: within every group of spans sharing a `first_page` value, the
assigned counters are exactly `1, 2, …, k` in assignment order — contiguous
from 1 and never repeating. -/
theorem case_counters_contiguous : ∀ (spans : List Span) (ps fp : ℕ),
    ((caseCounters spans ps).filter (fun t => decide (t.2.1 = fp))).map
        (fun t => t.2.2) =
      List.range' 1
        (((caseCounters spans ps).filter
          (fun t => decide (t.2.1 = fp))).length) := by
  intro spans ps fp
  have h := ccGo_counters (sortSpans spans) ps (fun _ => 0) fp
  simp only at h
  unfold caseCounters
  rw [h]
  congr 1
  have hlen := congrArg List.length h
  simp only [List.length_map, List.length_range'] at hlen
  exact hlen.symm

/-- C5: the header ceiling is `max 90 (tallest_header_bottom + 5)` exactly
when some header is detected on the page and the tallest header's bottom
edge lies strictly above one third of the image height; otherwise it is
90 pixels. -/
theorem ceiling_header_guard : ∀ (global : List LayoutObject) (p : ℕ)
    (img_h : ℚ),
    ((pageObjects global p).filter (fun o => decide (o.label = Label.header))
        = [] →
      ceilingY (pageObjects global p) img_h = 90) ∧
    ∀ m,
      m ∈ ((pageObjects global p).filter
            (fun o => decide (o.label = Label.header))).map (fun o => o.y2) →
      (∀ y ∈ ((pageObjects global p).filter
            (fun o => decide (o.label = Label.header))).map (fun o => o.y2),
          y ≤ m) →
      ceilingY (pageObjects global p) img_h =
        if m < img_h / 3 then max 90 (m + 5) else 90 := by
  intro global p img_h
  constructor
  · intro h
    unfold ceilingY
    rw [h]
    rfl
  · intro m hm hub
    unfold ceilingY
    cases hfil : (pageObjects global p).filter
        (fun o => decide (o.label = Label.header)) with
    | nil => rw [hfil] at hm; simp at hm
    | cons o os =>
        rw [hfil] at hm hub
        rw [List.map_cons] at hm hub
        simp only [List.map_cons]
        have hmax : (os.map (fun o => o.y2)).foldl max o.y2 = m := by
          apply foldl_max_eq
          · rcases List.mem_cons.mp hm with h' | h'
            · exact Or.inl h'.symm
            · exact Or.inr h'
          · exact hub o.y2 (List.mem_cons_self _ _)
          · intro z hz
            exact hub z (List.mem_cons_of_mem _ hz)
        rw [hmax]

/-- C5, witness: a lone header with bottom edge 100 on a 1000-pixel-high
page raises the ceiling to `max 90 105 = 105`. -/
theorem ceiling_header_guard_witness :
    ceilingY (pageObjects [oHeader] 0) 1000 = 105 := by
  have h := (ceiling_header_guard [oHeader] 0 1000).2 100 (by decide)
    (by decide)
  rw [h]
  decide

/-- C6: each column's bottom limit is the minimum of the default margin
`img_h - 60` and the top edges of the page's footnotes assigned to that
column, where a footnote with no column constrains both columns. -/
theorem bottom_limits_min : ∀ (global : List LayoutObject) (p : ℕ)
    (img_h : ℚ),
    footnoteLimits (pageObjects global p) img_h =
      ((((pageObjects global p).filter (fun o =>
          decide (o.label = Label.footnotes ∧ o.col ≠ Col.RIGHT))).map
            (fun o => o.y1)).foldl min (img_h - 60),
       (((pageObjects global p).filter (fun o =>
          decide (o.label = Label.footnotes ∧ o.col ≠ Col.LEFT))).map
            (fun o => o.y1)).foldl min (img_h - 60)) := by
  intro global p img_h
  exact foldl_footnoteStep (pageObjects global p) _ _

/-- C7, counterexample: with inverted LEFT column x-bounds, a same-column
instruction produces a window of negative width that is still forwarded to
the text redactor — width degeneracy does not drop a column window. -/
theorem degenerate_width_window_forwarded :
    applyInstruction cfg0 ctxBad sLeft eLeft2 0 = [⟨300, 100, 30, 600⟩] ∧
      ∀ w ∈ applyInstruction cfg0 ctxBad sLeft eLeft2 0, w.x1 - w.x0 < 0 := by
  decide

/-- C7, amended: a column window is dropped exactly on vertical degeneracy
(clamped bottom at or above clamped top), and a discrete-object box is
dropped on non-positive height or width; a column window of non-positive
width is not checked. -/
theorem degenerate_drop_rules :
    (∀ (ctx : GeoCtx) (yt yb : ℚ) (b : Bool),
      pyInt (min (if b then ctx.limit_bottom_left else ctx.limit_bottom_right)
          yb) ≤ pyInt (max ctx.ceiling_y yt) →
        doColumnBox ctx yt yb b = none) ∧
    ∀ (x1 y1 x2 y2 : Int) (sx sy : ℚ),
      y2 ≤ y1 ∨ x2 ≤ x1 → addRedactionBox x1 y1 x2 y2 sx sy = none := by
  constructor
  · intro ctx yt yb b h
    unfold doColumnBox
    simp only [if_pos h]
  · intro x1 y1 x2 y2 sx sy h
    unfold addRedactionBox
    simp only [if_pos h]

/-- C7, witness: a height-degenerate column window and a width-degenerate
discrete box are both dropped. -/
theorem degenerate_drop_rules_witness :
    doColumnBox ctx0 500 100 true = none ∧
      addRedactionBox 5 5 5 9 1 1 = none :=
  ⟨degenerate_drop_rules.1 ctx0 500 100 true (by decide),
   degenerate_drop_rules.2 5 5 5 9 1 1 (Or.inr le_rfl)⟩

/-- C8, counterexample: on a page whose raster is not a 200 dpi rendering
of its point size, the splitter's fixed `72 / dpi` factor differs from the
redactor's per-page `(pdf_w / img_w, pdf_h / img_h)` ratios. -/
theorem splitter_scale_counterexample :
    splitterScale cfg0 ≠ (pageScale dimsOff).1 ∧
      splitterScale cfg0 ≠ (pageScale dimsOff).2 := by
  decide

/-- C8, amended: the body redactor derives its factors per page as
`(pdf_w / img_w, pdf_h / img_h)`; the splitter instead uses the single
fixed factor `72 / dpi` on both axes of every page, and the two agree
exactly on pages whose raster equals the point size scaled by `dpi / 72`. -/
theorem splitter_scale_vs_page_scale : ∀ (d : PageDims) (cfg : RedCfg),
    pageScale d = (d.pdf_w / d.img_w, d.pdf_h / d.img_h) ∧
    (d.pdf_w ≠ 0 → d.pdf_h ≠ 0 → cfg.dpi ≠ 0 →
      d.img_w = d.pdf_w * cfg.dpi / 72 → d.img_h = d.pdf_h * cfg.dpi / 72 →
      pageScale d = (splitterScale cfg, splitterScale cfg)) := by
  intro d cfg
  constructor
  · rfl
  · intro h1 h2 h3 hw hh
    unfold pageScale splitterScale
    rw [hw, hh, Prod.mk.injEq]
    constructor
    · field_simp
      ring
    · field_simp
      ring

/-- C8, witness: the agreement condition holds for US Letter pages rendered
at exactly 200 dpi. -/
theorem splitter_scale_vs_page_scale_witness :
    pageScale dims200 = (splitterScale cfg0, splitterScale cfg0) :=
  (splitter_scale_vs_page_scale dims200 cfg0).2 (by decide) (by decide)
    (by decide) (by decide) (by decide)

/-- C9: on the input `caption1, headmatter1, line1, Key1, caption2, Key2`
the stale `candidate_end` tracker survives the
TRACKING → LOCKED_UNTIL_KEY → WAIT_CAPTION path, so the second Key emits the
instruction `{caption2, headmatter1}` in addition to the second span. -/
theorem plan_stale_candidate_end :
    (plan [o9caption1, o9headmatter1, o9line1, o9key1, o9caption2, o9key2]
        1).instructions =
      [⟨some o9caption1, some o9line1⟩, ⟨some o9caption2, some o9headmatter1⟩] ∧
    (plan [o9caption1, o9headmatter1, o9line1, o9key1, o9caption2, o9key2]
        1).spans =
      [⟨⟨1, some o9caption1, some o9key1, "caption->Key"⟩, "0001-01"⟩,
       ⟨⟨2, some o9caption2, some o9key2, "caption->Key"⟩, "0001-02"⟩] := by
  decide

/-- C10: a page absent from `page_dimensions` is left entirely untouched:
no body windows, no discrete-object boxes, no header redaction, and no
`apply_redactions` call. -/
theorem skipped_page_untouched : ∀ (cfg : RedCfg) (inp : RedactInputs)
    (p : ℕ),
    inp.page_dimensions p = none →
    redactPage cfg inp p = ⟨[], [], none, false⟩ := by
  intro cfg inp p h
  unfold redactPage
  rw [h]

/-- C10, witness: the skip evaluated on inputs with an empty dimension map
but a pending instruction and objects on the page. -/
theorem skipped_page_untouched_witness :
    redactPage cfg0 inpNoDims 3 = ⟨[], [], none, false⟩ :=
  skipped_page_untouched cfg0 inpNoDims 3 rfl

end Blackletter
